import Mathlib

/-!
Verification of the 1inch sdks-examples repository (TypeScript example
scripts for the Fusion intent-swap SDKs on EVM chains and Solana).

The development shallowly embeds the scripts' own logic - amount
formatting, RPC-URL gateway detection, the provider adapter pair
(ethers.js / viem), the order-status polling loops, the pre-trade
balance/allowance phases, the top-level catch handlers, the WebSocket
completion promises, and the Solana private-key decoding - as executable
Lean definitions, and proves the spec claims about them.

External library primitives (JS BigInt decimal printing, bs58 decoding,
the lenient Node base64 decoder) are modelled by explicit executable
definitions so that every theorem can be evaluated on concrete inputs.
-/

/-! ## String utilities

`strIncludes hay needle` models the JavaScript `hay.includes(needle)`
substring test used by `is1inchGateway` (src/evm/shared/types.ts) and by
the polling-loop catch clauses. -/

/-- Model of list prefix testing (no library dependence, kernel-evaluable). -/
def isPrefixList : List Char → List Char → Bool
  | [], _ => true
  | _ :: _, [] => false
  | a :: as, b :: bs => a = b && isPrefixList as bs

/-- `containsSub needle hay`: does `needle` occur contiguously in `hay`? -/
def containsSub (needle : List Char) : List Char → Bool
  | [] => isPrefixList needle []
  | c :: rest => isPrefixList needle (c :: rest) || containsSub needle rest

/-- Model of JavaScript `hay.includes(needle)`. -/
def strIncludes (hay needle : String) : Bool :=
  containsSub needle.data hay.data

/-! ## Decimal printing

Model of JavaScript `BigInt.prototype.toString()` (base 10, no leading
zeros, `"0"` for zero), implemented with explicit fuel so the kernel can
evaluate it on concrete inputs. -/

/-- Big-endian decimal digits of `n`; `[]` for `0`. Fuel-driven. -/
def natDigitsAux : Nat → Nat → List Char
  | 0, _ => []
  | fuel + 1, n =>
    if n = 0 then []
    else natDigitsAux fuel (n / 10) ++ [Nat.digitChar (n % 10)]

/-- Big-endian decimal digits of `n`; `[]` for `0`. -/
def natDigits (n : Nat) : List Char := natDigitsAux n n

/-- Model of JS `BigInt.prototype.toString()` / template-string printing. -/
def jsNatToString (n : Nat) : String :=
  if n = 0 then "0" else String.mk (natDigits n)

/-! ## formatAmount (src/evm/shared/types.ts lines 281-287) and
formatTokenAmount (src/solana/utils/connection.ts lines 306-312) -/

/-- Model of JS `String.prototype.padStart(len, c)`: pad on the left up
to length `len`; a string already at least that long is unchanged. -/
def padStart (s : String) (len : Nat) (c : Char) : String :=
  String.mk (List.replicate (len - s.length) c ++ s.data)

/-- Model of JS `String.prototype.slice(0, k)` on ASCII strings. -/
def sliceTo (s : String) (k : Nat) : String :=
  String.mk (s.data.take k)

/-- Embedding of `formatAmount` from src/evm/shared/types.ts:
`divisor = 10n ** decimals; return integerPart + "." + (fractionalPart
.toString().padStart(decimals, "0")).slice(0, 6)`. -/
def formatAmount (amount : Nat) (decimals : Nat) : String :=
  let divisor := 10 ^ decimals
  let integerPart := amount / divisor
  let fractionalPart := amount % divisor
  let fractionalStr := padStart (jsNatToString fractionalPart) decimals '0'
  jsNatToString integerPart ++ "." ++ sliceTo fractionalStr 6

/-- Embedding of `formatTokenAmount` from src/solana/utils/connection.ts;
the body is character-for-character the same as `formatAmount`. -/
def formatTokenAmount (amount : Nat) (decimals : Nat) : String :=
  let divisor := 10 ^ decimals
  let integerPart := amount / divisor
  let fractionalPart := amount % divisor
  let fractionalStr := padStart (jsNatToString fractionalPart) decimals '0'
  jsNatToString integerPart ++ "." ++ sliceTo fractionalStr 6

/-- The remainder written with exactly `d` digits (left zero-padded),
most significant first. This is the specification-side description of
the fractional part. -/
def digitsPaddedSpec : Nat → Nat → List Char
  | 0, _ => []
  | d + 1, r => digitsPaddedSpec d (r / 10) ++ [Nat.digitChar (r % 10)]

/-- Specification-side fractional string: for `decimals = 0` the code
yields the single digit `0` (the `padStart` target length 0 leaves the
string `"0"` unchanged); for `decimals ≥ 1` it is the first
`min 6 decimals` digits of the remainder written with exactly
`decimals` digits. -/
def fracSpec : Nat → Nat → List Char
  | 0, _ => ['0']
  | d + 1, r => (digitsPaddedSpec (d + 1) r).take 6

/-- The amended specification of `formatAmount`. -/
def formatAmountSpec (amount decimals : Nat) : String :=
  jsNatToString (amount / 10 ^ decimals) ++ "." ++
    String.mk (fracSpec decimals (amount % 10 ^ decimals))

/-! ## Configuration and the 1inch gateway test
(src/evm/shared/types.ts, src/solana/utils/connection.ts) -/

/-- EVM configuration loaded by `loadConfig` in src/evm/shared/types.ts. -/
structure EvmConfig where
  apiKey : String
  privateKey : String
  rpcUrl : String
  networkId : String

/-- Solana configuration loaded by `loadConfig` in
src/solana/utils/connection.ts (no network id field). -/
structure SolanaConfig where
  apiKey : String
  privateKey : String
  rpcUrl : String

/-- Embedding of `is1inchGateway` (src/evm/shared/types.ts lines
296-298): `rpcUrl.includes("api.1inch.com/web3")`. -/
def is1inchGateway (rpcUrl : String) : Bool :=
  strIncludes rpcUrl "api.1inch.com/web3"

/-- Authorization header attached by the ethers `createProvider`
(providers/ethers.ts lines 46-55): a `FetchRequest` carrying
`Authorization: Bearer <apiKey>` exactly when `is1inchGateway`. -/
def ethersAuthHeader (cfg : EvmConfig) : Option String :=
  if is1inchGateway cfg.rpcUrl then some ("Bearer " ++ cfg.apiKey) else none

/-- Authorization header attached by the viem `createProvider`
(providers/viem.ts lines 88-96): `transportOptions.fetchOptions.headers`
carrying the same bearer token exactly when `is1inchGateway`. -/
def viemAuthHeader (cfg : EvmConfig) : Option String :=
  if is1inchGateway cfg.rpcUrl then some ("Bearer " ++ cfg.apiKey) else none

/-- HTTP Authorization header attached by the Solana `createWallet`
(src/solana/utils/connection.ts lines 169-187); the gateway test there
is written inline as `config.rpcUrl.includes("api.1inch.com/web3")`. -/
def solanaHttpAuthHeader (cfg : SolanaConfig) : Option String :=
  if strIncludes cfg.rpcUrl "api.1inch.com/web3" then
    some ("Bearer " ++ cfg.apiKey)
  else none

/-- WebSocket endpoint chosen by the Solana `createWallet` under the
same inline gateway test. -/
def solanaWsEndpoint (cfg : SolanaConfig) : Option String :=
  if strIncludes cfg.rpcUrl "api.1inch.com/web3" then
    some ("wss://api.1inch.com/web3/501?apiKey=" ++ cfg.apiKey)
  else none

/-! ## The two EVM provider implementations (claim C4)

providers/ethers.ts and providers/viem.ts implement the `EVMProvider`
interface (providers/interface.ts). Each operation is modelled by the
abstract chain-level call sequence it issues. -/

/-- Chain-level calls issued by a provider operation. -/
inductive RpcCall
  | ethGetBalance (addr : String)
  | ethCallBalanceOf (token owner : String)
  | ethCallAllowance (token owner spender : String)
  | sendApproveTx (token spender : String) (amount : Nat)
  | waitReceipt (txHash : String)
deriving DecidableEq

/-- The five operations of the `EVMProvider` interface
(providers/interface.ts lines 56-119). -/
inductive ProviderOp
  | getNativeBalance (addr : String)
  | getTokenBalance (token owner : String)
  | getTokenAllowance (token owner spender : String)
  | approveToken (token spender : String) (amount : Nat)
  | waitForTransaction (txHash : String)
deriving DecidableEq

/-- Call sequence of the ethers implementation (providers/ethers.ts
lines 74-101): `getBalance`, `Contract.balanceOf`, `Contract.allowance`,
`Contract.approve` through the wallet, `waitForTransaction`. -/
def ethersOpCalls : ProviderOp → List RpcCall
  | .getNativeBalance a => [.ethGetBalance a]
  | .getTokenBalance t o => [.ethCallBalanceOf t o]
  | .getTokenAllowance t o s => [.ethCallAllowance t o s]
  | .approveToken t s amt => [.sendApproveTx t s amt]
  | .waitForTransaction h => [.waitReceipt h]

/-- Call sequence of the viem implementation (providers/viem.ts lines
129-169): `getBalance`, `readContract balanceOf`, `readContract
allowance`, `writeContract approve`, `waitForTransactionReceipt`. -/
def viemOpCalls : ProviderOp → List RpcCall
  | .getNativeBalance a => [.ethGetBalance a]
  | .getTokenBalance t o => [.ethCallBalanceOf t o]
  | .getTokenAllowance t o s => [.ethCallAllowance t o s]
  | .approveToken t s amt => [.sendApproveTx t s amt]
  | .waitForTransaction h => [.waitReceipt h]

/-- Chain ids of `NETWORK_MAP` (src/evm/shared/types.ts lines 34-48),
used by `createFusionSDK` for validation; includes Unichain "130". -/
def NETWORK_MAP_ids : List String :=
  ["1", "8453", "56", "137", "42161", "10", "43114", "100", "250",
   "324", "59144", "146", "130"]

/-- Chain ids of `VIEM_CHAIN_MAP` (providers/viem.ts lines 45-59); the
source notes that Unichain (130) is not yet available in viem/chains. -/
def VIEM_CHAIN_MAP_ids : List String :=
  ["1", "8453", "56", "137", "42161", "10", "43114", "100", "250",
   "324", "59144", "146"]

/-- Whether the ethers `createProvider` accepts a configuration: the
function body (providers/ethers.ts lines 44-102) performs no network-id
validation at all, so every configuration is accepted. -/
def ethersCreateProviderOk (_cfg : EvmConfig) : Bool := true

/-- Whether the viem `createProvider` accepts a configuration: it throws
`Unsupported network ID` unless `VIEM_CHAIN_MAP[config.networkId]`
exists (providers/viem.ts lines 77-82). -/
def viemCreateProviderOk (cfg : EvmConfig) : Bool :=
  VIEM_CHAIN_MAP_ids.contains cfg.networkId

/-! ## The order-status polling loops (claims C1, C5)

src/evm/swap-erc20.ts lines 187-217 (identical loops in
swap-with-permit2.ts and swap-eth-to-erc20) and
src/solana/swap-sol-to-jup.ts lines 251-270. Real time is abstracted to
the finite list of poll iterations that fit inside the timeout budget;
exhausting the list is reaching the timeout. -/

/-- The Fusion order statuses (`OrderStatus` from the SDK, documented in
src/evm/shared/types.ts lines 98-111). -/
inductive OrderStatus
  | Pending
  | Filled
  | FalsePredicate
  | NotEnoughBalanceOrAllowance
  | Expired
  | PartiallyFilled
  | WrongPermit
  | Cancelled
  | InvalidSignature
deriving DecidableEq

/-- One iteration of the EVM loop observes either a status from
`getOrderStatus` or a thrown error with some message. -/
inductive PollEvent
  | ok (status : OrderStatus)
  | err (message : String)
deriving DecidableEq

/-- `Order timeout after ${orderTimeout / 1000}s` with the configured
300_000 ms timeout. -/
def orderTimeoutMsg : String := "Order timeout after 300s"

def orderExpiredMsg : String := "Order expired without being filled"

def orderCancelledMsg : String := "Order was cancelled"

/-- The try-block of one EVM loop iteration: `some (Except.ok ())` is
the `return` on Filled, `some (Except.error m)` is a throw (terminal
status or a failed status query), `none` is the default branch (print a
dot, sleep, next iteration). -/
def evmTryBody : PollEvent → Option (Except String Unit)
  | .ok .Filled => some (Except.ok ())
  | .ok .Expired => some (Except.error orderExpiredMsg)
  | .ok .Cancelled => some (Except.error orderCancelledMsg)
  | .ok _ => none
  | .err m => some (Except.error m)

/-- One EVM loop iteration including the catch clause: an error whose
message includes "Order" is rethrown, any other caught error leads to a
retry (`none`). -/
def evmPollStep (e : PollEvent) : Option (Except String Unit) :=
  match evmTryBody e with
  | none => none
  | some (Except.ok _) => some (Except.ok ())
  | some (Except.error m) =>
      if strIncludes m "Order" then some (Except.error m) else none

/-- The EVM polling loop of src/evm/swap-erc20.ts lines 187-217; running
out of iterations models `Date.now() - startTime >= orderTimeout`, after
which the script throws the timeout error. -/
def evmPollLoop : List PollEvent → Except String Unit
  | [] => Except.error orderTimeoutMsg
  | e :: rest =>
    match evmPollStep e with
    | some r => r
    | none => evmPollLoop rest

/-- One iteration of the Solana loop observes `status.isActive()` or a
thrown error (the catch clause there ignores the error entirely). -/
inductive SolPollEvent
  | ok (isActive : Bool)
  | err
deriving DecidableEq

/-- The Solana polling loop of src/solana/swap-sol-to-jup.ts lines
251-276: inactive order returns, active order and every error retry, and
on timeout the loop falls through to a console message and a normal
return (no throw). -/
def solanaPollLoop : List SolPollEvent → Except String Unit
  | [] => Except.ok ()
  | e :: rest =>
    match e with
    | .ok false => Except.ok ()
    | .ok true => solanaPollLoop rest
    | .err => solanaPollLoop rest

/-- `main().then(() => process.exit(0)).catch(() => ... process.exit(1))`
(src/evm/swap-erc20.ts lines 224-238 and the other full scripts). -/
def scriptExit : Except String Unit → Nat
  | Except.ok _ => 0
  | Except.error _ => 1

/-- Exit status of src/evm/swap-erc20.ts as a function of what its wait
loop observes (reaching the loop). -/
def swapErc20ExitCode (events : List PollEvent) : Nat :=
  scriptExit (evmPollLoop events)

/-- Exit status of src/solana/swap-sol-to-jup.ts as a function of what
its wait loop observes (reaching the loop). -/
def solanaSwapExitCode (events : List SolPollEvent) : Nat :=
  scriptExit (solanaPollLoop events)

/-- The two quick-start scripts end with `main().catch(console.error)`:
no `process.exit` call at all, so whatever `main` does the process exits
with status 0 (a rejection is converted into a console log). -/
def quickStartExitCode (_result : Except String Unit) : Nat := 0

/-! ## Pre-trade script phases (claims C2, C3)

The part of each script `main` between configuration and order
submission, as the list of chain/SDK effects it performs plus the
optional error it throws. -/

/-- Fund-affecting and read effects performed by the script phases. -/
inductive ScriptAction
  | getTokenBalance
  | getTokenAllowance
  | approveToken
  | waitForTransaction
  | getQuote
  | createOrder
  | submitOrder
  | getBalance
  | sendEscrowTx
  | confirmEscrowTx
deriving DecidableEq

/-- The explicit mid-script errors thrown by the modelled phases. There
is deliberately no insufficient-allowance constructor: no EVM script
contains such a throw (a low allowance triggers an approval instead). -/
inductive ErrMsg
  | insufficientBalance
  | presetNotFound
  | escrowTxFailed
deriving DecidableEq

/-- `SWAP_CONFIG.amount` of src/evm/swap-erc20.ts ("1000000"). -/
def swapErc20Amount : Nat := 1000000

/-- `SWAP_CONFIG.amount` of src/evm/swap-with-permit2.ts ("10000000"). -/
def permit2Amount : Nat := 10000000

/-- Responses the chain gives to the EVM pre-trade phase. -/
structure EvmChainState where
  balance : Nat
  allowance : Nat
  presetFound : Bool
deriving DecidableEq

/-- STEP 2 - STEP 5 of src/evm/swap-erc20.ts main (lines 96-179): check
balance (throw if short), check allowance (approve and wait if short -
spender AGGREGATION_ROUTER_V6, amount `swapErc20Amount`), get quote
(throw if the recommended preset is missing), create and submit. -/
def swapErc20Run (st : EvmChainState) : List ScriptAction × Option ErrMsg :=
  if st.balance < swapErc20Amount then
    ([ScriptAction.getTokenBalance], some ErrMsg.insufficientBalance)
  else
    let approveActs :=
      if st.allowance < swapErc20Amount then
        [ScriptAction.approveToken, ScriptAction.waitForTransaction]
      else []
    let pre := [ScriptAction.getTokenBalance, ScriptAction.getTokenAllowance] ++
      approveActs ++ [ScriptAction.getQuote]
    if st.presetFound then
      (pre ++ [ScriptAction.createOrder, ScriptAction.submitOrder], none)
    else
      (pre, some ErrMsg.presetNotFound)

/-- STEP 2 - STEP 5 of src/evm/swap-with-permit2.ts main (lines 95-182):
same shape as `swapErc20Run` with the Permit2 spender and amount
`permit2Amount` (the approval itself is for MAX_UINT256). -/
def permit2Run (st : EvmChainState) : List ScriptAction × Option ErrMsg :=
  if st.balance < permit2Amount then
    ([ScriptAction.getTokenBalance], some ErrMsg.insufficientBalance)
  else
    let approveActs :=
      if st.allowance < permit2Amount then
        [ScriptAction.approveToken, ScriptAction.waitForTransaction]
      else []
    let pre := [ScriptAction.getTokenBalance, ScriptAction.getTokenAllowance] ++
      approveActs ++ [ScriptAction.getQuote]
    if st.presetFound then
      (pre ++ [ScriptAction.createOrder, ScriptAction.submitOrder], none)
    else
      (pre, some ErrMsg.presetNotFound)

/-- The EVM quick-start main (quick-start.ts lines 307-341): it reads no
balance at all; it checks the allowance, approves and waits if short,
then quotes, creates and submits (the missing-preset access uses `?.`
and cannot throw). -/
def quickStartRun (allowance : Nat) : List ScriptAction × Option ErrMsg :=
  let approveActs :=
    if allowance < 1000000 then
      [ScriptAction.approveToken, ScriptAction.waitForTransaction]
    else []
  ([ScriptAction.getTokenAllowance] ++ approveActs ++
    [ScriptAction.getQuote, ScriptAction.createOrder, ScriptAction.submitOrder], none)

/-- `SWAP_CONFIG.amount` of src/solana/swap-sol-to-jup.ts:
`BigInt(0.1 * LAMPORTS_PER_SOL)` = 100000000 lamports. -/
def solanaSwapAmount : Nat := 100000000

/-- `estimatedFees = BigInt(0.01 * LAMPORTS_PER_SOL)` = 10000000. -/
def solanaEstimatedFees : Nat := 10000000

/-- Responses the chain gives to the Solana pre-poll phase. -/
structure SolanaChainState where
  balance : Nat
  escrowTxOk : Bool
deriving DecidableEq

/-- STEP 2 - STEP 5 of src/solana/swap-sol-to-jup.ts main (lines
114-237): check the SOL balance against amount plus fee buffer (throw if
short), create the order, send and confirm the escrow transaction
(throw if confirmation reports an error). -/
def solanaSwapRun (st : SolanaChainState) : List ScriptAction × Option ErrMsg :=
  if st.balance < solanaSwapAmount + solanaEstimatedFees then
    ([ScriptAction.getBalance], some ErrMsg.insufficientBalance)
  else
    let pre := [ScriptAction.getBalance, ScriptAction.createOrder,
      ScriptAction.sendEscrowTx, ScriptAction.confirmEscrowTx]
    if st.escrowTxOk then (pre, none) else (pre, some ErrMsg.escrowTxFailed)

/-! ## Top-level catch handlers (claim C6) -/

/-- A rejected value as seen by a top-level catch handler: its message
and, for axios-style errors, the embedded `response.data` payload. -/
structure JsError where
  message : String
  responseData : Option String
deriving DecidableEq

/-- Handler of the full scripts (src/evm/swap-erc20.ts lines 229-238,
swap-with-permit2.ts, swap-eth-to-erc20, src/solana/swap-sol-to-jup.ts,
the Solana WebSocket tracker and cancel-order): log the message, log the
API payload when the error carries one, exit 1. -/
def fullScriptCatch (e : JsError) : List String × Nat :=
  (["Error: " ++ e.message] ++
    (match e.responseData with
     | some d => ["API Response: " ++ d]
     | none => []), 1)

/-- Handler of the EVM WebSocket tracker (websocket-order-tracking main
entry point, lines 248-256): log the message only - it has no
`response.data` block - and exit 1. -/
def wsTrackerCatch (e : JsError) : List String × Nat :=
  (["Error: " ++ e.message], 1)

/-- Handler of both quick-start scripts: `main().catch(console.error)`
logs the error and never calls `process.exit`, so the process exits 0. -/
def quickStartCatch (e : JsError) : List String × Nat :=
  (["Error: " ++ e.message], 0)

/-! ## WebSocket completion promises (claim C7)

The EVM tracker (websocket-order-tracking lines 100-151) and the Solana
tracker (solana websocket example lines 395-434) each create one promise
whose executor registers event callbacks plus a timer. The promise
settles at most once; a settled promise ignores later calls, and the
handlers compare every event hash against the submitted order hash. -/

/-- Events delivered to the EVM tracker subscriptions, plus the timer. -/
inductive WsEvent
  | created (h : String)
  | filled (h : String)
  | filledPartially (h : String)
  | invalid (h : String)
  | balanceChange (h : String)
  | timer
deriving DecidableEq

/-- Settlement state of a JS promise. -/
inductive PromiseState
  | pending
  | resolved
  | rejected (msg : String)
deriving DecidableEq

def orderInvalidMsg : String := "Order was invalidated or cancelled"

/-- One event arriving at the EVM tracker: `onOrderFilled` resolves and
`onOrderInvalid` rejects when the hash matches, the timer rejects with
the timeout error, everything else only logs; a settled promise is
never changed. -/
def wsStep (orderHash : String) (st : PromiseState) (e : WsEvent) :
    PromiseState :=
  match st with
  | .pending =>
    match e with
    | .filled h => if h = orderHash then .resolved else .pending
    | .invalid h => if h = orderHash then .rejected orderInvalidMsg else .pending
    | .timer => .rejected orderTimeoutMsg
    | _ => .pending
  | settled => settled

/-- The EVM tracker promise after a sequence of events. -/
def wsRun (orderHash : String) (events : List WsEvent) : PromiseState :=
  events.foldl (wsStep orderHash) .pending

/-- Which events can settle the EVM tracker promise for `orderHash`. -/
def wsTerminal (orderHash : String) : WsEvent → Bool
  | .filled h => h = orderHash
  | .invalid h => h = orderHash
  | .timer => true
  | _ => false

/-- Settlement outcome determined by the first terminal event, if any. -/
def wsVerdict : Option WsEvent → PromiseState
  | none => .pending
  | some (.filled _) => .resolved
  | some (.invalid _) => .rejected orderInvalidMsg
  | some .timer => .rejected orderTimeoutMsg
  | some _ => .pending

/-- Events delivered to the Solana tracker subscriptions
(`onOrderCreated`, `onOrderFilled`, `onOrderCancelled`), plus the timer. -/
inductive SolWsEvent
  | created (h : String)
  | filled (h : String)
  | cancelled (h : String)
  | timer
deriving DecidableEq

def solCancelledMsg : String := "Order was cancelled"

/-- One event arriving at the Solana tracker. -/
def solWsStep (orderHash : String) (st : PromiseState) (e : SolWsEvent) :
    PromiseState :=
  match st with
  | .pending =>
    match e with
    | .filled h => if h = orderHash then .resolved else .pending
    | .cancelled h => if h = orderHash then .rejected solCancelledMsg else .pending
    | .timer => .rejected orderTimeoutMsg
    | _ => .pending
  | settled => settled

/-- The Solana tracker promise after a sequence of events. -/
def solWsRun (orderHash : String) (events : List SolWsEvent) : PromiseState :=
  events.foldl (solWsStep orderHash) .pending

/-- Which events can settle the Solana tracker promise for `orderHash`. -/
def solWsTerminal (orderHash : String) : SolWsEvent → Bool
  | .filled h => h = orderHash
  | .cancelled h => h = orderHash
  | .timer => true
  | _ => false

/-- Settlement outcome determined by the first terminal event, if any. -/
def solWsVerdict : Option SolWsEvent → PromiseState
  | none => .pending
  | some (.filled _) => .resolved
  | some (.cancelled _) => .rejected solCancelledMsg
  | some .timer => .rejected orderTimeoutMsg
  | some _ => .pending

/-! ## Solana private-key decoding (claim C9)

`createWallet` (src/solana/utils/connection.ts lines 189-215) decodes
`SOLANA_PRIVATE_KEY` with `bs58.decode`, requiring 64 bytes; on either a
decode failure or a wrong length it falls back to the lenient Node
`Buffer.from(_, "base64")` decoder, again requiring 64 bytes; otherwise
it throws one fixed descriptive error. The quick-start script
(src/solana/quick-start.ts lines 32-48) instead falls back to base64
only when `bs58.decode` throws, and then accepts 32-byte seeds via
`Keypair.fromSeed` as well as 64-byte secret keys. -/

/-- The Bitcoin/Solana base58 alphabet. -/
def base58Chars : List Char :=
  "123456789ABCDEFGHJKLMNPQRSTUVWXYZabcdefghijkmnopqrstuvwxyz".data

/-- Value of one base58 digit; `none` for a character outside the
alphabet (on which `bs58.decode` throws). -/
def base58Index (c : Char) : Option Nat :=
  base58Chars.findIdx? (· = c)

/-- Big-endian base58 value of a character list; `none` on any invalid
character. -/
def bs58ValAux (acc : Nat) : List Char → Option Nat
  | [] => some acc
  | c :: rest =>
    match base58Index c with
    | none => none
    | some v => bs58ValAux (acc * 58 + v) rest

/-- Minimal big-endian base-256 byte list of `n`; `[]` for `0`.
Fuel-driven like `natDigitsAux`. -/
def natBytesAux : Nat → Nat → List Nat
  | 0, _ => []
  | fuel + 1, n =>
    if n = 0 then []
    else natBytesAux fuel (n / 256) ++ [n % 256]

/-- Minimal big-endian byte representation of a natural number. -/
def natBytesBE (n : Nat) : List Nat := natBytesAux n n

/-- Model of `bs58.decode`: each leading `'1'` contributes a zero byte,
the remaining value is written big-endian; `none` models the throw on a
character outside the alphabet. -/
def bs58Decode (s : String) : Option (List Nat) :=
  match bs58ValAux 0 s.data with
  | none => none
  | some v =>
    some (List.replicate ((s.data.takeWhile (· = '1')).length) 0 ++ natBytesBE v)

/-- Value of one base64 digit under the standard alphabet; `none` for
characters the lenient Node decoder skips. -/
def base64Index (c : Char) : Option Nat :=
  let n := c.toNat
  if 65 ≤ n ∧ n ≤ 90 then some (n - 65)
  else if 97 ≤ n ∧ n ≤ 122 then some (n - 97 + 26)
  else if 48 ≤ n ∧ n ≤ 57 then some (n - 48 + 52)
  else if n = 43 then some 62
  else if n = 47 then some 63
  else none

/-- Groups of four 6-bit values into three bytes; a trailing group of
two or three values yields one or two bytes, a single value none. -/
def base64Bytes : List Nat → List Nat
  | a :: b :: c :: d :: rest =>
    (a * 4 + b / 16) :: (b % 16 * 16 + c / 4) :: (c % 4 * 64 + d) ::
      base64Bytes rest
  | [a, b] => [a * 4 + b / 16]
  | [a, b, c] => [a * 4 + b / 16, b % 16 * 16 + c / 4]
  | _ => []

/-- Model of the lenient `Buffer.from(s, "base64")`: characters outside
the alphabet are skipped, the rest are decoded; this never throws. -/
def base64Decode (s : String) : List Nat :=
  base64Bytes (s.data.filterMap base64Index)

/-- The descriptive error thrown by `createWallet` when neither decoding
yields a 64-byte secret key. -/
def solanaKeyErrMsg : String :=
  "Invalid SOLANA_PRIVATE_KEY format. Expected base58 or base64-encoded 64-byte secret key. You can export this from your Solana wallet or generate with solana-keygen."

/-- The key-decoding portion of `createWallet` (src/solana/utils/
connection.ts lines 189-215): try base58, require 64 bytes; on failure
of either step fall back to base64, require 64 bytes; otherwise throw
the one descriptive error. -/
def createWalletKey (privateKey : String) : Except String (List Nat) :=
  match bs58Decode privateKey with
  | some k =>
    if k.length = 64 then Except.ok k
    else if (base64Decode privateKey).length = 64 then
      Except.ok (base64Decode privateKey)
    else Except.error solanaKeyErrMsg
  | none =>
    if (base64Decode privateKey).length = 64 then
      Except.ok (base64Decode privateKey)
    else Except.error solanaKeyErrMsg

/-- How the Solana quick-start turns decoded bytes into a wallet. -/
inductive SolKey
  | fromSeed (bytes : List Nat)
  | fromSecretKey (bytes : List Nat)
deriving DecidableEq

/-- The key-decoding portion of src/solana/quick-start.ts lines 32-48:
base64 is used only when `bs58.decode` throws; a 32-byte result becomes
`Keypair.fromSeed`, a 64-byte result `Keypair.fromSecretKey`, any other
length throws. -/
def quickStartKey (privateKey : String) : Except String SolKey :=
  let secretKey :=
    match bs58Decode privateKey with
    | some k => k
    | none => base64Decode privateKey
  if secretKey.length = 32 then Except.ok (SolKey.fromSeed secretKey)
  else if secretKey.length = 64 then Except.ok (SolKey.fromSecretKey secretKey)
  else Except.error ("Invalid private key length: " ++
    jsNatToString secretKey.length ++ " bytes (expected 32 or 64)")

/-- A base58 string denoting the all-zero 32-byte seed. -/
def seed32Example : String := "11111111111111111111111111111111"

/-! ## Supporting lemmas -/

theorem isPrefixList_iff (n : List Char) :
    ∀ h, isPrefixList n h = true ↔ ∃ t, h = n ++ t := by
  induction n with
  | nil =>
    intro h
    simp [isPrefixList]
  | cons a as ih =>
    intro h
    cases h with
    | nil =>
      simp [isPrefixList]
    | cons b bs =>
      simp only [isPrefixList, Bool.and_eq_true, decide_eq_true_eq, ih bs]
      constructor
      · rintro ⟨rfl, t, rfl⟩
        exact ⟨t, rfl⟩
      · rintro ⟨t, ht⟩
        injection ht with h1 h2
        exact ⟨h1.symm, t, h2⟩

theorem containsSub_iff (n : List Char) :
    ∀ h, containsSub n h = true ↔ ∃ p t, h = p ++ n ++ t := by
  intro h
  induction h with
  | nil =>
    simp only [containsSub, isPrefixList_iff]
    constructor
    · rintro ⟨t, ht⟩
      exact ⟨[], t, by simpa using ht⟩
    · rintro ⟨p, t, ht⟩
      have h1 : p ++ n = [] ∧ t = [] := List.append_eq_nil.mp ht.symm
      have h2 : p = [] ∧ n = [] := List.append_eq_nil.mp h1.1
      exact ⟨[], by simp [h2.2]⟩
  | cons c rest ih =>
    simp only [containsSub, Bool.or_eq_true, isPrefixList_iff, ih]
    constructor
    · rintro (⟨t, ht⟩ | ⟨p, t, ht⟩)
      · exact ⟨[], t, by simpa using ht⟩
      · exact ⟨c :: p, t, by simp [ht]⟩
    · rintro ⟨p, t, ht⟩
      cases p with
      | nil =>
        exact Or.inl ⟨t, by simpa using ht⟩
      | cons q qs =>
        injection ht with h1 h2
        exact Or.inr ⟨qs, t, h2⟩

/-- JS `includes` finds the needle anywhere in the string. -/
theorem strIncludes_iff (hay needle : String) :
    strIncludes hay needle = true ↔
      ∃ p t, hay.data = p ++ needle.data ++ t :=
  containsSub_iff needle.data hay.data

theorem natDigitsAux_zero (f : Nat) : natDigitsAux f 0 = [] := by
  cases f <;> rfl

theorem natDigitsAux_fuel :
    ∀ f₁ f₂ n, n ≤ f₁ → n ≤ f₂ → natDigitsAux f₁ n = natDigitsAux f₂ n := by
  intro f₁
  induction f₁ with
  | zero =>
    intro f₂ n hn _
    have : n = 0 := Nat.le_zero.mp hn
    subst this
    rw [natDigitsAux_zero, natDigitsAux_zero]
  | succ f ih =>
    intro f₂ n hn1 hn2
    by_cases h0 : n = 0
    · subst h0; rw [natDigitsAux_zero, natDigitsAux_zero]
    · have hpos : 0 < n := Nat.pos_of_ne_zero h0
      cases f₂ with
      | zero => omega
      | succ g =>
        simp only [natDigitsAux, h0, if_false]
        have hd : n / 10 < n := Nat.div_lt_self hpos (by decide)
        congr 1
        exact ih g (n / 10) (by omega) (by omega)

theorem natDigits_succ (n : Nat) (h : n ≠ 0) :
    natDigits n = natDigits (n / 10) ++ [Nat.digitChar (n % 10)] := by
  have hpos : 0 < n := Nat.pos_of_ne_zero h
  obtain ⟨m, rfl⟩ : ∃ m, n = m + 1 := ⟨n - 1, by omega⟩
  show natDigitsAux (m + 1) (m + 1) = _
  simp only [natDigitsAux, h, if_false]
  congr 1
  have hd : (m + 1) / 10 ≤ m := by
    have := Nat.div_lt_self hpos (show 1 < 10 by decide)
    omega
  exact natDigitsAux_fuel m ((m + 1) / 10) ((m + 1) / 10) hd (Nat.le_refl _)

theorem digitsPaddedSpec_zero : ∀ d, digitsPaddedSpec d 0 = List.replicate d '0' := by
  intro d
  induction d with
  | zero => rfl
  | succ d ih =>
    simp only [digitsPaddedSpec, Nat.zero_div, ih]
    rw [List.replicate_succ' (n := d)]
    rfl

theorem padZeros_natDigits (d : Nat) :
    ∀ r, r < 10 ^ d →
      List.replicate (d - (natDigits r).length) '0' ++ natDigits r =
        digitsPaddedSpec d r := by
  induction d with
  | zero =>
    intro r hr
    have : r = 0 := by simpa using Nat.lt_one_iff.mp hr
    subst this
    rfl
  | succ d ih =>
    intro r hr
    have hdiv : r / 10 < 10 ^ d := by
      rw [Nat.div_lt_iff_lt_mul (by decide)]
      calc r < 10 ^ (d + 1) := hr
        _ = 10 ^ d * 10 := by rw [Nat.pow_succ]
    by_cases h0 : r = 0
    · subst h0
      show List.replicate (d + 1 - (natDigits 0).length) '0' ++ natDigits 0 = _
      have hnil : natDigits 0 = [] := rfl
      rw [hnil, digitsPaddedSpec, Nat.zero_div, digitsPaddedSpec_zero]
      simp only [List.length_nil, Nat.sub_zero, List.append_nil]
      rw [List.replicate_succ' (n := d)]
      rfl
    · rw [natDigits_succ r h0]
      simp only [List.length_append, List.length_singleton, digitsPaddedSpec]
      rw [← ih (r / 10) hdiv]
      have hsub : d + 1 - ((natDigits (r / 10)).length + 1) =
          d - (natDigits (r / 10)).length := Nat.succ_sub_succ _ _
      rw [hsub, List.append_assoc]

theorem padStart_jsNatToString (d r : Nat) (hd : d ≠ 0) (hr : r < 10 ^ d) :
    padStart (jsNatToString r) d '0' = String.mk (digitsPaddedSpec d r) := by
  by_cases h0 : r = 0
  · subst h0
    obtain ⟨e, rfl⟩ : ∃ e, d = e + 1 := ⟨d - 1, by omega⟩
    show padStart "0" (e + 1) '0' = _
    rw [digitsPaddedSpec_zero]
    unfold padStart
    congr 1
    have hlen : ("0" : String).length = 1 := rfl
    have hdata : ("0" : String).data = ['0'] := rfl
    rw [hlen, hdata, Nat.add_sub_cancel, ← List.replicate_succ']
  · unfold padStart jsNatToString
    simp only [h0, if_false]
    exact congrArg String.mk (padZeros_natDigits d r hr)

theorem formatAmount_eq_formatAmountSpec (a d : Nat) :
    formatAmount a d = formatAmountSpec a d := by
  cases d with
  | zero =>
    simp only [formatAmount, formatAmountSpec, pow_zero, Nat.mod_one]
    rfl
  | succ e =>
    have hr : a % 10 ^ (e + 1) < 10 ^ (e + 1) :=
      Nat.mod_lt _ (Nat.pos_pow_of_pos _ (by decide))
    simp only [formatAmount, formatAmountSpec, fracSpec]
    rw [padStart_jsNatToString (e + 1) _ (by omega) hr]
    rfl

theorem digitsPaddedSpec_length : ∀ d r, (digitsPaddedSpec d r).length = d := by
  intro d
  induction d with
  | zero => intro r; rfl
  | succ e ih =>
    intro r
    simp [digitsPaddedSpec, ih]

theorem evmPollLoop_eq_findSome (evs : List PollEvent) :
    evmPollLoop evs =
      (evs.findSome? evmPollStep).getD (Except.error orderTimeoutMsg) := by
  induction evs with
  | nil => rfl
  | cons e rest ih =>
    simp only [evmPollLoop, List.findSome?_cons]
    cases h : evmPollStep e <;> simp [h, ih]

theorem evmPollStep_ok_iff (e : PollEvent) :
    evmPollStep e = some (Except.ok ()) ↔
      e = PollEvent.ok OrderStatus.Filled := by
  cases e with
  | ok s =>
    cases s <;>
      simp [evmPollStep, evmTryBody,
        show strIncludes orderExpiredMsg "Order" = true from rfl,
        show strIncludes orderCancelledMsg "Order" = true from rfl]
  | err m =>
    simp only [evmPollStep, evmTryBody]
    split <;> simp

theorem solanaPollLoop_ok (evs : List SolPollEvent) :
    solanaPollLoop evs = Except.ok () := by
  induction evs with
  | nil => rfl
  | cons e rest ih =>
    cases e with
    | ok b => cases b <;> simp [solanaPollLoop, ih]
    | err => simp [solanaPollLoop, ih]

theorem wsFold_settled (h : String) (st : PromiseState)
    (hst : st ≠ PromiseState.pending) :
    ∀ evs, List.foldl (wsStep h) st evs = st := by
  intro evs
  induction evs with
  | nil => rfl
  | cons e rest ih =>
    have hstep : wsStep h st e = st := by
      cases st with
      | pending => exact absurd rfl hst
      | resolved => rfl
      | rejected m => rfl
    simp [List.foldl, hstep, ih]

theorem wsRun_eq_verdict (h : String) (evs : List WsEvent) :
    wsRun h evs = wsVerdict (evs.find? (wsTerminal h)) := by
  induction evs with
  | nil => rfl
  | cons e rest ih =>
    show List.foldl (wsStep h) (wsStep h PromiseState.pending e) rest = _
    cases e with
    | created x =>
      simpa [wsStep, wsTerminal, List.find?] using ih
    | filledPartially x =>
      simpa [wsStep, wsTerminal, List.find?] using ih
    | balanceChange x =>
      simpa [wsStep, wsTerminal, List.find?] using ih
    | timer =>
      rw [show wsStep h PromiseState.pending WsEvent.timer =
        PromiseState.rejected orderTimeoutMsg from rfl]
      rw [wsFold_settled h _ (by simp)]
      simp [wsTerminal, List.find?, wsVerdict]
    | filled x =>
      by_cases hx : x = h
      · subst hx
        rw [show wsStep x PromiseState.pending (WsEvent.filled x) =
          PromiseState.resolved from by simp [wsStep]]
        rw [wsFold_settled x _ (by simp)]
        simp [wsTerminal, List.find?, wsVerdict]
      · rw [show wsStep h PromiseState.pending (WsEvent.filled x) =
          PromiseState.pending from by simp [wsStep, hx]]
        simpa [wsRun, wsTerminal, List.find?, hx] using ih
    | invalid x =>
      by_cases hx : x = h
      · subst hx
        rw [show wsStep x PromiseState.pending (WsEvent.invalid x) =
          PromiseState.rejected orderInvalidMsg from by simp [wsStep]]
        rw [wsFold_settled x _ (by simp)]
        simp [wsTerminal, List.find?, wsVerdict]
      · rw [show wsStep h PromiseState.pending (WsEvent.invalid x) =
          PromiseState.pending from by simp [wsStep, hx]]
        simpa [wsRun, wsTerminal, List.find?, hx] using ih

theorem solWsFold_settled (h : String) (st : PromiseState)
    (hst : st ≠ PromiseState.pending) :
    ∀ evs, List.foldl (solWsStep h) st evs = st := by
  intro evs
  induction evs with
  | nil => rfl
  | cons e rest ih =>
    have hstep : solWsStep h st e = st := by
      cases st with
      | pending => exact absurd rfl hst
      | resolved => rfl
      | rejected m => rfl
    simp [List.foldl, hstep, ih]

theorem solWsRun_eq_verdict (h : String) (evs : List SolWsEvent) :
    solWsRun h evs = solWsVerdict (evs.find? (solWsTerminal h)) := by
  induction evs with
  | nil => rfl
  | cons e rest ih =>
    show List.foldl (solWsStep h) (solWsStep h PromiseState.pending e) rest = _
    cases e with
    | created x =>
      simpa [solWsStep, solWsTerminal, List.find?] using ih
    | timer =>
      rw [show solWsStep h PromiseState.pending SolWsEvent.timer =
        PromiseState.rejected orderTimeoutMsg from rfl]
      rw [solWsFold_settled h _ (by simp)]
      simp [solWsTerminal, List.find?, solWsVerdict]
    | filled x =>
      by_cases hx : x = h
      · subst hx
        rw [show solWsStep x PromiseState.pending (SolWsEvent.filled x) =
          PromiseState.resolved from by simp [solWsStep]]
        rw [solWsFold_settled x _ (by simp)]
        simp [solWsTerminal, List.find?, solWsVerdict]
      · rw [show solWsStep h PromiseState.pending (SolWsEvent.filled x) =
          PromiseState.pending from by simp [solWsStep, hx]]
        simpa [solWsRun, solWsTerminal, List.find?, hx] using ih
    | cancelled x =>
      by_cases hx : x = h
      · subst hx
        rw [show solWsStep x PromiseState.pending (SolWsEvent.cancelled x) =
          PromiseState.rejected solCancelledMsg from by simp [solWsStep]]
        rw [solWsFold_settled x _ (by simp)]
        simp [solWsTerminal, List.find?, solWsVerdict]
      · rw [show solWsStep h PromiseState.pending (SolWsEvent.cancelled x) =
          PromiseState.pending from by simp [solWsStep, hx]]
        simpa [solWsRun, solWsTerminal, List.find?, hx] using ih

/-! ## Claim theorems -/

/-- C1 (counterexample): the claim says every script exits 1 on a
thrown error, cancellation, expiry, or wait-loop timeout. Concretely:
the Solana swap script exits 0 when its wait loop times out (it falls
through to a log line and returns normally - here with no poll
iterations and with two iterations that observe the order still
active), and a quick-start whose `main` rejects still exits 0 because
`main().catch(console.error)` never calls `process.exit`. -/
theorem C1_solana_timeout_cex :
    solanaSwapExitCode [] = 0 ∧
    solanaSwapExitCode [SolPollEvent.ok true, SolPollEvent.ok true] = 0 ∧
    quickStartExitCode (Except.error "Insufficient USDC balance") = 0 :=
  ⟨rfl, rfl, rfl⟩

/-- C1 (amended): the full EVM swap scripts exit 0 exactly when the
wait loop observes a Filled status before any terminal error (loop
iterations that decide the run yield `Except.ok` only on Filled), and
exit 1 otherwise; the Solana polling script exits 0 whatever the loop
observes - including timeout - once it reaches the loop; the
quick-start scripts exit 0 on every outcome of `main`. -/
theorem C1_exit_codes_amended :
    (∀ e, evmPollStep e = some (Except.ok ()) ↔
        e = PollEvent.ok OrderStatus.Filled) ∧
    (∀ evs, swapErc20ExitCode evs = 0 ↔
        evs.findSome? evmPollStep = some (Except.ok ())) ∧
    (∀ evs, swapErc20ExitCode evs = 0 ∨ swapErc20ExitCode evs = 1) ∧
    (∀ evs, solanaSwapExitCode evs = 0) ∧
    (∀ r, quickStartExitCode r = 0) := by
  refine ⟨evmPollStep_ok_iff, ?_, ?_, ?_, fun _ => rfl⟩
  · intro evs
    unfold swapErc20ExitCode
    rw [evmPollLoop_eq_findSome]
    cases h : evs.findSome? evmPollStep with
    | none => simp [scriptExit]
    | some r =>
      cases r with
      | ok u => simp [scriptExit]
      | error m => simp [scriptExit]
  · intro evs
    unfold swapErc20ExitCode
    cases hl : evmPollLoop evs with
    | ok u => left; rfl
    | error m => right; rfl
  · intro evs
    unfold solanaSwapExitCode
    rw [solanaPollLoop_ok]
    rfl

/-- C5 (counterexample): the claim says every error thrown by a
transient status query failure is caught and the query retried. But the
catch clause rethrows any error whose message includes "Order": a
transient query failure with message "Order not found" ends the loop
with that error even though the very next poll would have observed the
fill, while the same run with the message "connection reset" is retried
and succeeds. -/
theorem C5_order_message_retry_cex :
    evmPollLoop [PollEvent.err "Order not found",
      PollEvent.ok OrderStatus.Filled] = Except.error "Order not found" ∧
    evmPollLoop [PollEvent.err "connection reset",
      PollEvent.ok OrderStatus.Filled] = Except.ok () :=
  ⟨rfl, rfl⟩

/-- C5 (amended): the EVM loop polls until Filled (success), Expired or
Cancelled (throw), or timeout (throw), retrying a failed status query
only when the error message does not contain "Order" and rethrowing it
when it does; the Solana loop polls until the order is inactive or the
timeout, retrying on every error, and its timeout is a normal return. -/
theorem C5_poll_loop_amended :
    (∀ m rest, strIncludes m "Order" = false →
        evmPollLoop (PollEvent.err m :: rest) = evmPollLoop rest) ∧
    (∀ m rest, strIncludes m "Order" = true →
        evmPollLoop (PollEvent.err m :: rest) = Except.error m) ∧
    (∀ rest, evmPollLoop (PollEvent.ok OrderStatus.Filled :: rest) =
        Except.ok ()) ∧
    (∀ rest, evmPollLoop (PollEvent.ok OrderStatus.Expired :: rest) =
        Except.error orderExpiredMsg) ∧
    (∀ rest, evmPollLoop (PollEvent.ok OrderStatus.Cancelled :: rest) =
        Except.error orderCancelledMsg) ∧
    (∀ rest, evmPollLoop (PollEvent.ok OrderStatus.Pending :: rest) =
        evmPollLoop rest) ∧
    evmPollLoop [] = Except.error orderTimeoutMsg ∧
    (∀ rest, solanaPollLoop (SolPollEvent.err :: rest) = solanaPollLoop rest) ∧
    (∀ rest, solanaPollLoop (SolPollEvent.ok false :: rest) = Except.ok ()) ∧
    (∀ rest, solanaPollLoop (SolPollEvent.ok true :: rest) =
        solanaPollLoop rest) ∧
    solanaPollLoop [] = Except.ok () := by
  refine ⟨?_, ?_, ?_, ?_, ?_, ?_, rfl, fun _ => rfl, fun _ => rfl,
    fun _ => rfl, rfl⟩
  · intro m rest hm
    simp [evmPollLoop, evmPollStep, evmTryBody, hm]
  · intro m rest hm
    simp [evmPollLoop, evmPollStep, evmTryBody, hm]
  · intro rest; rfl
  · intro rest
    simp [evmPollLoop, evmPollStep, evmTryBody,
      show strIncludes orderExpiredMsg "Order" = true from rfl]
  · intro rest
    simp [evmPollLoop, evmPollStep, evmTryBody,
      show strIncludes orderCancelledMsg "Order" = true from rfl]
  · intro rest; rfl

/-- C7: each WebSocket completion promise is settled by exactly the
first terminal happening - an order-filled event for the submitted hash
resolves it, an order-invalid (EVM) or order-cancelled (Solana) event
for that hash or the timer rejects it - and events for other hashes or
non-terminal events (created, partial fill, balance change) never
settle it: the final state is fully determined by the first event
passing the terminal test, and is pending when there is none. -/
theorem C7_ws_promise_settlement :
    (∀ h evs, wsRun h evs = wsVerdict (evs.find? (wsTerminal h))) ∧
    (∀ h evs, solWsRun h evs = solWsVerdict (evs.find? (solWsTerminal h))) :=
  ⟨wsRun_eq_verdict, solWsRun_eq_verdict⟩

/-- C2 (counterexample): the claim says every swap script throws before
any fund-moving call when the balance is below the amount. The EVM
quick-start performs no balance read at all: with allowance 0 (below
the 1 USDC amount) it reaches `approveToken` and `submitOrder` and
throws nothing, whatever the wallet balance is. -/
theorem C2_quickstart_balance_cex :
    quickStartRun 0 =
      ([ScriptAction.getTokenAllowance, ScriptAction.approveToken,
        ScriptAction.waitForTransaction, ScriptAction.getQuote,
        ScriptAction.createOrder, ScriptAction.submitOrder], none) ∧
    ScriptAction.getTokenBalance ∉ (quickStartRun 0).1 ∧
    ScriptAction.getBalance ∉ (quickStartRun 0).1 ∧
    ScriptAction.approveToken ∈ (quickStartRun 0).1 := by
  refine ⟨rfl, ?_, ?_, ?_⟩ <;> decide

/-- C2 (amended): in the full swap scripts a balance below the amount
(plus the fee buffer on Solana) throws the insufficient-balance error
immediately after the balance read, before any approval, submission or
escrow action; the quick-start scripts, however, never read a balance
and never throw a balance error. -/
theorem C2_balance_check_amended :
    (∀ st : EvmChainState, st.balance < swapErc20Amount →
        swapErc20Run st =
          ([ScriptAction.getTokenBalance], some ErrMsg.insufficientBalance)) ∧
    (∀ st : EvmChainState, st.balance < permit2Amount →
        permit2Run st =
          ([ScriptAction.getTokenBalance], some ErrMsg.insufficientBalance)) ∧
    (∀ st : SolanaChainState,
        st.balance < solanaSwapAmount + solanaEstimatedFees →
        solanaSwapRun st =
          ([ScriptAction.getBalance], some ErrMsg.insufficientBalance)) ∧
    (∀ allowance, (quickStartRun allowance).2 = none ∧
        ScriptAction.getTokenBalance ∉ (quickStartRun allowance).1 ∧
        ScriptAction.getBalance ∉ (quickStartRun allowance).1) := by
  refine ⟨?_, ?_, ?_, ?_⟩
  · intro st h
    unfold swapErc20Run
    rw [if_pos h]
  · intro st h
    unfold permit2Run
    rw [if_pos h]
  · intro st h
    unfold solanaSwapRun
    rw [if_pos h]
  · intro allowance
    unfold quickStartRun
    by_cases h : allowance < 1000000 <;> simp [h]

/-- C3 (counterexample): the claim says a quote allowance below the
swap amount makes the script throw a descriptive insufficient-allowance
error. Concretely, with a sufficient balance and allowance 0 both EVM
swap scripts throw nothing (`none`): they send an approval transaction,
wait for it, and continue to submission. -/
theorem C3_allowance_no_throw_cex :
    swapErc20Run ⟨2000000, 0, true⟩ =
      ([ScriptAction.getTokenBalance, ScriptAction.getTokenAllowance,
        ScriptAction.approveToken, ScriptAction.waitForTransaction,
        ScriptAction.getQuote, ScriptAction.createOrder,
        ScriptAction.submitOrder], none) ∧
    permit2Run ⟨20000000, 0, true⟩ =
      ([ScriptAction.getTokenBalance, ScriptAction.getTokenAllowance,
        ScriptAction.approveToken, ScriptAction.waitForTransaction,
        ScriptAction.getQuote, ScriptAction.createOrder,
        ScriptAction.submitOrder], none) :=
  ⟨rfl, rfl⟩

/-- C3 (amended): in every EVM swap script run with a sufficient
balance and an allowance below the amount, the script performs an
approval (and waits for it) instead of throwing, and its only possible
mid-script errors are insufficient balance and missing preset - there
is no insufficient-allowance error anywhere in the scripts. -/
theorem C3_allowance_approves_amended :
    (∀ st : EvmChainState, swapErc20Amount ≤ st.balance →
        st.allowance < swapErc20Amount →
        ScriptAction.approveToken ∈ (swapErc20Run st).1 ∧
        ScriptAction.waitForTransaction ∈ (swapErc20Run st).1) ∧
    (∀ st : EvmChainState, permit2Amount ≤ st.balance →
        st.allowance < permit2Amount →
        ScriptAction.approveToken ∈ (permit2Run st).1 ∧
        ScriptAction.waitForTransaction ∈ (permit2Run st).1) ∧
    (∀ st : EvmChainState, (swapErc20Run st).2 = none ∨
        (swapErc20Run st).2 = some ErrMsg.insufficientBalance ∨
        (swapErc20Run st).2 = some ErrMsg.presetNotFound) ∧
    (∀ st : EvmChainState, (permit2Run st).2 = none ∨
        (permit2Run st).2 = some ErrMsg.insufficientBalance ∨
        (permit2Run st).2 = some ErrMsg.presetNotFound) := by
  refine ⟨?_, ?_, ?_, ?_⟩
  · intro st h1 h2
    unfold swapErc20Run
    rw [if_neg (Nat.not_lt.mpr h1), if_pos h2]
    by_cases hp : st.presetFound = true <;> simp [hp]
  · intro st h1 h2
    unfold permit2Run
    rw [if_neg (Nat.not_lt.mpr h1), if_pos h2]
    by_cases hp : st.presetFound = true <;> simp [hp]
  · intro st
    unfold swapErc20Run
    by_cases hb : st.balance < swapErc20Amount
    · rw [if_pos hb]; right; left; rfl
    · rw [if_neg hb]
      by_cases hp : st.presetFound = true <;> simp [hp]
  · intro st
    unfold permit2Run
    by_cases hb : st.balance < permit2Amount
    · rw [if_pos hb]; right; left; rfl
    · rw [if_neg hb]
      by_cases hp : st.presetFound = true <;> simp [hp]

/-- C4 (counterexample): the claim says the two createProvider
implementations accept the same configurations. With networkId "130"
(Unichain, which NETWORK_MAP supports) the ethers implementation
accepts the configuration - it validates nothing - while the viem
implementation throws `Unsupported network ID` because VIEM_CHAIN_MAP
has no entry for "130". -/
theorem C4_provider_network130_cex :
    ethersCreateProviderOk
      ⟨"key", "0xpk", "https://api.1inch.com/web3/130", "130"⟩ = true ∧
    viemCreateProviderOk
      ⟨"key", "0xpk", "https://api.1inch.com/web3/130", "130"⟩ = false ∧
    "130" ∈ NETWORK_MAP_ids ∧ "130" ∉ VIEM_CHAIN_MAP_ids := by
  refine ⟨rfl, ?_, ?_, ?_⟩ <;> decide

/-- C4 (amended): the two implementations attach the same Authorization
header and issue identical chain call sequences for each of the five
EVMProvider operations, so behaviour coincides on every network id in
VIEM_CHAIN_MAP; but the viem provider accepts exactly those twelve ids
while the ethers provider accepts every configuration, so they differ
on ids outside VIEM_CHAIN_MAP such as Unichain "130". -/
theorem C4_provider_equivalence_amended :
    (∀ op, ethersOpCalls op = viemOpCalls op) ∧
    (∀ cfg, viemAuthHeader cfg = ethersAuthHeader cfg) ∧
    (∀ cfg : EvmConfig, ethersCreateProviderOk cfg = true) ∧
    (∀ cfg : EvmConfig, viemCreateProviderOk cfg = true ↔
        cfg.networkId ∈ VIEM_CHAIN_MAP_ids) := by
  refine ⟨?_, fun _ => rfl, fun _ => rfl, ?_⟩
  · intro op
    cases op <;> rfl
  · intro cfg
    unfold viemCreateProviderOk
    exact ⟨fun hc => List.mem_of_elem_eq_true hc, fun hm => List.elem_eq_true_of_mem hm⟩

/-- C6 (counterexample): the claim says every unhandled error is caught
at top level, logged with any embedded API payload, and followed by a
non-zero exit. Concretely, a quick-start logs only the error and the
process exits 0, and the EVM WebSocket tracker exits 1 but drops the
payload the error carries. -/
theorem C6_top_level_catch_cex :
    quickStartCatch ⟨"request failed", some "status 429"⟩ =
      (["Error: request failed"], 0) ∧
    wsTrackerCatch ⟨"request failed", some "status 429"⟩ =
      (["Error: request failed"], 1) :=
  ⟨rfl, rfl⟩

/-- C6 (amended): the full scripts catch every rejection at top level,
log the message plus the API payload when the error carries one, and
exit 1; the EVM WebSocket tracker logs only the message and exits 1;
the quick-start scripts log the error and exit 0. -/
theorem C6_top_level_catch_amended :
    (∀ e : JsError, (fullScriptCatch e).2 = 1 ∧
        ("Error: " ++ e.message) ∈ (fullScriptCatch e).1 ∧
        (∀ d, e.responseData = some d →
          ("API Response: " ++ d) ∈ (fullScriptCatch e).1)) ∧
    (∀ e : JsError, wsTrackerCatch e = (["Error: " ++ e.message], 1)) ∧
    (∀ e : JsError, (quickStartCatch e).2 = 0) := by
  refine ⟨?_, fun _ => rfl, fun _ => rfl⟩
  intro e
  refine ⟨rfl, ?_, ?_⟩
  · unfold fullScriptCatch
    cases e.responseData <;> simp
  · intro d hd
    unfold fullScriptCatch
    rw [hd]
    simp

/-- C8 (counterexample): the claim says that for decimals = 0 the
result ends with a bare dot. But `padStart(0, "0")` leaves the string
`"0"` unchanged (the target length is not larger than its length), so
`formatAmount 5 0` is `"5.0"`, not `"5."`. -/
theorem C8_formatAmount_decimals_zero_cex :
    formatAmount 5 0 = "5.0" ∧ formatAmount 5 0 ≠ "5." := by
  refine ⟨rfl, ?_⟩
  decide

/-- C8 (amended): `formatAmount amount decimals` is the decimal string
of `amount / 10 ^ decimals`, a dot, and - for decimals ≥ 1 - the first
`min 6 decimals` digits of the remainder written with exactly
`decimals` zero-padded digits (truncation, never rounding; fewer than 6
fractional digits whenever decimals < 6); for decimals = 0 the
fractional part is the single digit `0`. `formatTokenAmount` is the
identical function. -/
theorem C8_formatAmount_spec :
    (∀ a d, formatAmount a d = formatAmountSpec a d) ∧
    (∀ a d, formatTokenAmount a d = formatAmount a d) ∧
    (∀ d r, (digitsPaddedSpec d r).length = d) :=
  ⟨formatAmount_eq_formatAmountSpec, fun _ _ => rfl, digitsPaddedSpec_length⟩

/-- C9: `createWallet` accepts the configured key exactly when base58
decoding yields 64 bytes or, failing that (a decode error or any other
length), the lenient base64 decoding yields 64 bytes; every other
string gets the one descriptive `Invalid SOLANA_PRIVATE_KEY format`
error. The all-zero 32-byte seed (base58: thirty-two `1`s), which the
quick-start accepts via `Keypair.fromSeed`, is rejected by
`createWallet`. -/
theorem C9_createWallet_key_acceptance :
    (∀ s, (∃ k, createWalletKey s = Except.ok k) ↔
        ((∃ k, bs58Decode s = some k ∧ k.length = 64) ∨
         ((¬ ∃ k, bs58Decode s = some k ∧ k.length = 64) ∧
           (base64Decode s).length = 64))) ∧
    (∀ s, createWalletKey s = Except.error solanaKeyErrMsg ↔
        ¬ ((∃ k, bs58Decode s = some k ∧ k.length = 64) ∨
           (base64Decode s).length = 64)) ∧
    bs58Decode seed32Example = some (List.replicate 32 0) ∧
    createWalletKey seed32Example = Except.error solanaKeyErrMsg ∧
    quickStartKey seed32Example =
      Except.ok (SolKey.fromSeed (List.replicate 32 0)) := by
  refine ⟨?_, ?_, by decide, rfl, rfl⟩
  · intro s
    unfold createWalletKey
    cases h : bs58Decode s with
    | none =>
      by_cases h64 : (base64Decode s).length = 64 <;> simp [h, h64]
    | some k =>
      by_cases hk : k.length = 64
      · simp [h, hk]
      · by_cases h64 : (base64Decode s).length = 64 <;> simp [h, hk, h64]
  · intro s
    unfold createWalletKey
    cases h : bs58Decode s with
    | none =>
      by_cases h64 : (base64Decode s).length = 64 <;> simp [h, h64]
    | some k =>
      by_cases hk : k.length = 64
      · simp [h, hk]
      · by_cases h64 : (base64Decode s).length = 64 <;> simp [h, hk, h64]

/-- C10: each client constructor attaches the `Bearer` Authorization
header exactly when the configured RPC URL contains the substring
`api.1inch.com/web3` anywhere (and never otherwise); the viem transport
options agree with the ethers FetchRequest header, and the Solana
connection selects its apiKey-carrying WebSocket endpoint under exactly
the same test. -/
theorem C10_auth_header_iff_gateway :
    (∀ cfg : EvmConfig, (ethersAuthHeader cfg).isSome = true ↔
        ∃ p t, cfg.rpcUrl.data = p ++ ("api.1inch.com/web3" : String).data ++ t) ∧
    (∀ cfg : EvmConfig,
        ethersAuthHeader cfg = some ("Bearer " ++ cfg.apiKey) ∨
        ethersAuthHeader cfg = none) ∧
    (∀ cfg : EvmConfig, viemAuthHeader cfg = ethersAuthHeader cfg) ∧
    (∀ cfg : SolanaConfig, (solanaHttpAuthHeader cfg).isSome = true ↔
        ∃ p t, cfg.rpcUrl.data = p ++ ("api.1inch.com/web3" : String).data ++ t) ∧
    (∀ cfg : SolanaConfig,
        solanaHttpAuthHeader cfg = some ("Bearer " ++ cfg.apiKey) ∨
        solanaHttpAuthHeader cfg = none) ∧
    (∀ cfg : SolanaConfig,
        (solanaWsEndpoint cfg).isSome = (solanaHttpAuthHeader cfg).isSome) := by
  refine ⟨?_, ?_, fun _ => rfl, ?_, ?_, ?_⟩
  · intro cfg
    rw [← strIncludes_iff]
    unfold ethersAuthHeader is1inchGateway
    cases hb : strIncludes cfg.rpcUrl "api.1inch.com/web3" <;> simp [hb]
  · intro cfg
    unfold ethersAuthHeader is1inchGateway
    cases hb : strIncludes cfg.rpcUrl "api.1inch.com/web3" <;> simp [hb]
  · intro cfg
    rw [← strIncludes_iff]
    unfold solanaHttpAuthHeader
    cases hb : strIncludes cfg.rpcUrl "api.1inch.com/web3" <;> simp [hb]
  · intro cfg
    unfold solanaHttpAuthHeader
    cases hb : strIncludes cfg.rpcUrl "api.1inch.com/web3" <;> simp [hb]
  · intro cfg
    unfold solanaWsEndpoint solanaHttpAuthHeader
    cases hb : strIncludes cfg.rpcUrl "api.1inch.com/web3" <;> simp [hb]
